import Mathlib

/-!
Shallow embedding of the container lifecycle orchestration engine:
the daemon-side start/cleanup sequencing (daemon/start.go), the
daemon-side create sequencing, and the runtime-client event handling
and start (libcontainerd container).  External collaborators (mount,
network, spec construction, the create RPC, the restart manager) are
modelled as oracle inputs carried in environment records; the
functions below mirror the control flow of the Go source, including
the deferred error handler of containerStart and the deferred rollback
handlers of create.
-/

/-- Decides whether the character list `p` is a leading segment of `l`,
mirroring byte-wise comparison of Go strings. -/
def listPrefixEq : List Char → List Char → Bool
  | [], _ => true
  | _ :: _, [] => false
  | a :: as, b :: bs => a == b && listPrefixEq as bs

/-- Decides whether the character list `p` occurs contiguously inside `l`. -/
def listOccurs (p : List Char) : List Char → Bool
  | [] => listPrefixEq p []
  | c :: cs => listPrefixEq p (c :: cs) || listOccurs p cs

/-- Go strings.Contains: `pat` occurs as a contiguous substring of `s`. -/
def strContains (s pat : String) : Bool :=
  listOccurs pat.data s.data

/-- Single-quote character, used when interpolating the container path
into user-facing error messages, as fmt.Errorf with %s does. -/
def squoteChar : String := String.singleton (Char.ofNat 39)

/-- Go error value: a message plus the optional HTTP status code attached
by errors.NewErrorWithStatusCode. -/
structure GoError where
  msg : String
  statusCode : Option Nat := none
deriving Repr, DecidableEq

/-- Daemon-side container record: the fields of container.Container read or
written by ContainerStart, containerStart and Cleanup. -/
structure Container where
  id : String
  path : String
  paused : Bool
  running : Bool
  removalInProgress : Bool
  dead : Bool
  exitCode : Int
  errorMsg : Option String
  hostConfigNetworkMode : String
  networksCleared : Bool
  dnsInitialized : Bool
  wasReset : Bool
  execCommands : List String
  baseFS : String
deriving Repr, DecidableEq

/-- Lifecycle events emitted through LogContainerEvent and
LogContainerEventWithAttributes; die carries the exitCode attribute. -/
inductive LifecycleEvent
  | start
  | die (exitCode : Int)
  | create
deriving Repr, DecidableEq

/-- Steps of the start sequence, recorded in order of execution so that
theorems can speak about which collaborators were invoked. -/
inductive StepTag
  | setSecurityOptions
  | setHostConfig
  | toDisk
  | initDNS
  | verifySettings
  | adaptSettings
  | mount
  | network
  | createSpec
  | createRPC
deriving Repr, DecidableEq

/-- Oracle results of the collaborators invoked by containerStart:
conditionalMountOnStart, initializeNetworking, createSpec and the
containerd create RPC.  some is a failure with that message. -/
structure CSEnv where
  mountErr : Option String
  networkErr : Option String
  specErr : Option String
  createErr : Option String
deriving Repr, DecidableEq

/-- Outcome of containerStart: the returned error, the container state on
return, the lifecycle events logged in order, the steps executed in
order, and whether the deferred daemon.Cleanup ran. -/
structure CSResult where
  ret : Option GoError
  ctr : Container
  events : List LifecycleEvent
  steps : List StepTag
  cleanupRan : Bool
deriving Repr, DecidableEq

/-- Message patterns classified to exit code 127 by containerStart. -/
def matchesNotFound (m : String) : Bool :=
  strContains m "executable file not found" ||
  strContains m "no such file or directory" ||
  strContains m "system cannot find the file specified"

/-- Text of syscall.EACCES.Error(), the permission-denied pattern.
Modelled from the spec: the constant lives in the Go standard library,
outside this repository. -/
def eaccesText : String := "permission denied"

/-- User-facing message for exit code 127, with the container path
interpolated between single quotes. -/
def notFoundMsg (p : String) : String :=
  "Container command " ++ squoteChar ++ p ++ squoteChar ++ " not found or does not exist."

/-- User-facing message for exit code 126, with the container path
interpolated between single quotes. -/
def invokeMsg (p : String) : String :=
  "Container command " ++ squoteChar ++ p ++ squoteChar ++ " could not be invoked."

/-- Error message returned when the container is marked for removal. -/
def removalErrMsg : String :=
  "Container is marked for removal and cannot be started."

/-- Modelled from the spec: container.Reset(false) resets transient
runtime state (attach pipes); its definition is outside src, and it does
not touch the exit code, which the surrounding code sets first and the
deferred handler reads afterwards. -/
def resetCtr (c : Container) : Container :=
  { c with wasReset := true }

/-- Deferred error handler of containerStart: SetError, default the exit
code to 128 when still zero, persist, run Cleanup, then log the die event
with the exit code, after any events the body already logged. -/
def startFailure (c : Container) (e : GoError) (steps : List StepTag)
    (preEvents : List LifecycleEvent) : CSResult :=
  let c1 : Container := { c with errorMsg := some e.msg }
  let c2 : Container := if c1.exitCode = 0 then { c1 with exitCode := 128 } else c1
  { ret := some e
  , ctr := c2
  , events := preEvents ++ [LifecycleEvent.die c2.exitCode]
  , steps := steps
  , cleanupRan := true }

/-- Core start sequence (daemon.containerStart): early returns for running
and for removal/dead, then mount, default network mode, networking, spec
construction and the create RPC, with the deferred handler applied to
every failure after the early returns, and the error-classification and
start-event logic of the RPC failure branch. -/
def containerStart (env : CSEnv) (c : Container) : CSResult :=
  if c.running then
    { ret := none, ctr := c, events := [], steps := [], cleanupRan := false }
  else if c.removalInProgress || c.dead then
    { ret := some { msg := removalErrMsg }, ctr := c, events := [], steps := []
    , cleanupRan := false }
  else
    match env.mountErr with
    | some m => startFailure c { msg := m } [StepTag.mount] []
    | none =>
      let c := if c.hostConfigNetworkMode = "" then
                 { c with hostConfigNetworkMode := "default" } else c
      match env.networkErr with
      | some m => startFailure c { msg := m } [StepTag.mount, StepTag.network] []
      | none =>
        match env.specErr with
        | some m =>
            startFailure c { msg := m }
              [StepTag.mount, StepTag.network, StepTag.createSpec] []
        | none =>
          match env.createErr with
          | some m =>
              let s1 : Container × String :=
                if matchesNotFound m then
                  ({ c with exitCode := 127 }, notFoundMsg c.path)
                else (c, m)
              let s2 : Container × String :=
                if strContains s1.2 eaccesText then
                  ({ s1.1 with exitCode := 126 }, invokeMsg s1.1.path)
                else s1
              startFailure (resetCtr s2.1) { msg := s2.2 }
                [StepTag.mount, StepTag.network, StepTag.createSpec,
                 StepTag.createRPC]
                [LifecycleEvent.start]
          | none =>
              { ret := none, ctr := c, events := []
              , steps := [StepTag.mount, StepTag.network, StepTag.createSpec,
                          StepTag.createRPC]
              , cleanupRan := false }

/-- Exit code the deferred handler records when the body left it at the
container's initial value. -/
def dieCode (c : Container) : Int :=
  if c.exitCode = 0 then 128 else c.exitCode

/-- Error message for starting a paused container. -/
def pausedErrMsg : String :=
  "Cannot start a paused container, try unpause instead."

/-- Error message wrapped with the HTTP not-modified status code. -/
def alreadyStartedMsg : String := "Container already started"

/-- Error message on Windows when a host config is supplied at start. -/
def winHostConfigMsg : String :=
  "Supplying a hostconfig on start is not supported. It should be supplied on create"

/-- Host configuration as far as ContainerStart inspects it: the network
mode compared before and after setHostConfig. -/
structure HostConfig where
  networkMode : String
deriving Repr, DecidableEq

/-- Oracle results of the collaborators invoked by ContainerStart before
it delegates to containerStart, plus the platform switch and the host
config optionally supplied by the caller. -/
structure DStartEnv where
  lookupErr : Option String
  isWindows : Bool
  hostConfig : Option HostConfig
  setSecurityErr : Option String
  setHostConfigErr : Option String
  toDiskErr : Option String
  verifyErr : Option String
  adaptErr : Option String
  cs : CSEnv
deriving Repr, DecidableEq

/-- Early-return helper for ContainerStart: an error produced before any
step ran and before the container was touched. -/
def dsAbort (c : Container) (e : GoError) (steps : List StepTag) : CSResult :=
  { ret := some e, ctr := c, events := [], steps := steps, cleanupRan := false }

/-- Tail of ContainerStart after the host-config handling:
verifyContainerSettings, adaptContainerSettings, then containerStart. -/
def afterHostConfig (env : DStartEnv) (c : Container) (pre : List StepTag) :
    CSResult :=
  match env.verifyErr with
  | some m => dsAbort c { msg := m } (pre ++ [StepTag.verifySettings])
  | none =>
    match env.adaptErr with
    | some m =>
        dsAbort c { msg := m }
          (pre ++ [StepTag.verifySettings, StepTag.adaptSettings])
    | none =>
      let r := containerStart env.cs c
      { r with steps := pre ++ [StepTag.verifySettings, StepTag.adaptSettings]
                          ++ r.steps }

/-- Entry point daemon.ContainerStart: container lookup, the paused and
running precondition checks, the deprecated host-config-on-start handling
(per platform), settings verification and adaptation, then the core
containerStart sequence. -/
def ContainerStart (env : DStartEnv) (c : Container) : CSResult :=
  match env.lookupErr with
  | some m => dsAbort c { msg := m } []
  | none =>
    if c.paused then
      dsAbort c { msg := pausedErrMsg } []
    else if c.running then
      dsAbort c { msg := alreadyStartedMsg, statusCode := some 304 } []
    else if !env.isWindows then
      match env.hostConfig with
      | none => afterHostConfig env c []
      | some hc =>
        match env.setSecurityErr with
        | some m => dsAbort c { msg := m } [StepTag.setSecurityOptions]
        | none =>
          match env.setHostConfigErr with
          | some m =>
              dsAbort c { msg := m }
                [StepTag.setSecurityOptions, StepTag.setHostConfig]
          | none =>
            let old := c.hostConfigNetworkMode
            let c1 : Container := { c with hostConfigNetworkMode := hc.networkMode }
            if old ≠ hc.networkMode then
              let c2 : Container := { c1 with networksCleared := true }
              match env.toDiskErr with
              | some m =>
                  dsAbort c2 { msg := m }
                    [StepTag.setSecurityOptions, StepTag.setHostConfig,
                     StepTag.toDisk]
              | none =>
                  afterHostConfig env { c2 with dnsInitialized := true }
                    [StepTag.setSecurityOptions, StepTag.setHostConfig,
                     StepTag.toDisk, StepTag.initDNS]
            else
              afterHostConfig env { c1 with dnsInitialized := true }
                [StepTag.setSecurityOptions, StepTag.setHostConfig,
                 StepTag.initDNS]
    else
      match env.hostConfig with
      | some _ => dsAbort c { msg := winHostConfigMsg } []
      | none => afterHostConfig env c []

/-- Oracle results of the collaborators invoked by Cleanup:
conditionalUnmountOnCleanup, layerStore.GetMountID, and UnmountVolumes. -/
structure CleanupEnv where
  unmountErr : Option String
  mountIDRes : Option String
  unmountVolumesErr : Option String
deriving Repr, DecidableEq

/-- Actions Cleanup performs, recorded in execution order. -/
inductive CleanupAction
  | releaseNetwork
  | unmountIpc
  | conditionalUnmount
  | forcedUnmountByID (id : String)
  | unregisterExec (name : String)
  | unmountVolumes
  | warnVolumes
  | cancelAttach
deriving Repr, DecidableEq

/-- daemon.Cleanup: release network, unmount IPC mounts, conditionally
unmount the root filesystem falling back to a forced unmount by mount ID
when that fails and the ID can be resolved, unregister every exec
command, unmount volumes when a base filesystem is set logging failures,
and cancel the attach context.  The Go function has no error result, and
the trace return type mirrors that: every call runs to the end. -/
def Cleanup (env : CleanupEnv) (c : Container) : List CleanupAction :=
  [CleanupAction.releaseNetwork, CleanupAction.unmountIpc,
   CleanupAction.conditionalUnmount]
  ++ (match env.unmountErr with
      | none => []
      | some _ =>
        match env.mountIDRes with
        | some mid => [CleanupAction.forcedUnmountByID mid]
        | none => [])
  ++ c.execCommands.map CleanupAction.unregisterExec
  ++ (if c.baseFS = "" then []
      else
        CleanupAction.unmountVolumes ::
          (match env.unmountVolumesErr with
           | some _ => [CleanupAction.warnVolumes]
           | none => []))
  ++ [CleanupAction.cancelAttach]

/-- Oracle results of the steps of daemon.create, in source order; image
is the requested image reference (empty means no image lookup is done),
containerID the ID newContainer assigns. -/
structure CreateEnv where
  image : String
  containerID : String
  getImageErr : Option String
  mergeErr : Option String
  newContainerErr : Option String
  setSecurityErr : Option String
  setRWLayerErr : Option String
  registerErr : Option String
  rootIDErr : Option String
  mkdirErr : Option String
  setHostConfigErr : Option String
  platformErr : Option String
  netSettingsErr : Option String
  toDiskErr : Option String
deriving Repr, DecidableEq

/-- Outcome of daemon.create: the returned ID or error, whether Register
succeeded, whether the deferred forced removal and the deferred
mount-point removal ran, and whether the create event was logged. -/
structure CreateResult where
  createdID : Option String
  err : Option String
  registered : Bool
  forcedRemove : Bool
  removedMountPoints : Bool
  createEvent : Bool
deriving Repr, DecidableEq

/-- Failure outcome of create with the given rollback flags. -/
def createFail (m : String) (registered forced mounts : Bool) : CreateResult :=
  { createdID := none, err := some m, registered := registered
  , forcedRemove := forced, removedMountPoints := mounts, createEvent := false }

/-- Result of the initial image lookup of create, which is skipped for an
empty image reference. -/
def imageLookup (env : CreateEnv) : Option String :=
  if env.image = "" then none else env.getImageErr

/-- daemon.create: image lookup (skipped for an empty image reference),
config merge, newContainer, then — with the forced-removal rollback
registered from this point on — security options, RW layer, Register,
root UID/GID lookup, metadata directory creation, setHostConfig, then —
with the mount-point removal rollback also registered — platform
settings, network settings update and persisting to disk, finally the
create event. -/
def create (env : CreateEnv) : CreateResult :=
  match imageLookup env with
  | some m => createFail m false false false
  | none =>
   match env.mergeErr with
   | some m => createFail m false false false
   | none =>
    match env.newContainerErr with
    | some m => createFail m false false false
    | none =>
     match env.setSecurityErr with
     | some m => createFail m false true false
     | none =>
      match env.setRWLayerErr with
      | some m => createFail m false true false
      | none =>
       match env.registerErr with
       | some m => createFail m false true false
       | none =>
        match env.rootIDErr with
        | some m => createFail m true true false
        | none =>
         match env.mkdirErr with
         | some m => createFail m true true false
         | none =>
          match env.setHostConfigErr with
          | some m => createFail m true true false
          | none =>
           match env.platformErr with
           | some m => createFail m true true true
           | none =>
            match env.netSettingsErr with
            | some m => createFail m true true true
            | none =>
             match env.toDiskErr with
             | some m => createFail m true true true
             | none =>
               { createdID := some env.containerID, err := none
               , registered := true, forcedRemove := false
               , removedMountPoints := false, createEvent := true }

/-- Whether create reaches the point where the in-memory container record
exists (newContainer succeeded), which is where the forced-removal
rollback is registered. -/
def reachedRecord (env : CreateEnv) : Bool :=
  (imageLookup env).isNone && env.mergeErr.isNone &&
    env.newContainerErr.isNone

/-- Whether create reaches the point just after Register succeeded. -/
def reachedRegistered (env : CreateEnv) : Bool :=
  reachedRecord env && env.setSecurityErr.isNone &&
    env.setRWLayerErr.isNone && env.registerErr.isNone

/-- Whether create reaches the point just after setHostConfig succeeded,
which is where the mount-point removal rollback is registered. -/
def reachedHostConfigDone (env : CreateEnv) : Bool :=
  reachedRegistered env && env.rootIDErr.isNone && env.mkdirErr.isNone &&
    env.setHostConfigErr.isNone

/-- Discriminated state values exchanged across the event bridge. -/
inductive CState
  | exit
  | pause
  | resume
  | oom
  | exitProcess
  | restart
  | start
deriving Repr, DecidableEq

/-- Modelled from the spec: the friendly name of the container init
process, against which an Exit event's process ID is compared; the
constant is declared outside src. -/
def InitFriendlyName : String := "init"

/-- Runtime-client shadow record for one container: the fields of the
libcontainerd container read or written by handleEvent. -/
structure Shadow where
  containerID : String
  oom : Bool
  restarting : Bool
  startedAt : Nat
  hasRestartManager : Bool
deriving Repr, DecidableEq

/-- Backend event as delivered on the subscription stream. -/
structure CEvent where
  type : CState
  id : String
  status : Nat
  pid : String
deriving Repr, DecidableEq

/-- StateInfo passed across the event bridge to the backend callback. -/
structure StateInfo where
  state : CState
  exitCode : Nat
  oomKilled : Bool
  processID : String := ""
deriving Repr, DecidableEq

/-- Outcome of one ShouldRestart consultation of the restart manager. -/
inductive RMDecision
  | err (msg : String)
  | noRestart
  | doRestart
deriving Repr, DecidableEq

/-- Oracle inputs of handleEvent: the wall clock read by time.Since and
the restart manager's decision when consulted. -/
structure HEEnv where
  now : Nat
  decision : RMDecision
deriving Repr, DecidableEq

/-- Outcome of handleEvent: the shadow on return, whether the event was
one of the recognized four, the StateInfo enqueued for delivery (none
when the event was dropped), the arguments passed to ShouldRestart when
it was consulted, whether the shadow was deleted from the client
registry, whether the container directory cleanup ran, which
sub-process's pipes were cleaned, and whether a restart waiter goroutine
was spawned. -/
structure HEResult where
  ctr : Shadow
  handled : Bool
  st : Option StateInfo
  consulted : Option (Nat × Bool × Nat)
  deletedFromRegistry : Bool
  cleaned : Bool
  cleanedProcess : Option String
  spawnedWaiter : Bool
deriving Repr, DecidableEq

/-- Shared tail of handleEvent: the final switch on the delivered state
(clean and deregister on Exit, clean only the sub-process pipes on
ExitProcess) followed by enqueueing the StateInfo for delivery. -/
def finishHE (ctr : Shadow) (st : StateInfo)
    (consulted : Option (Nat × Bool × Nat)) (preDeleted spawned : Bool) :
    HEResult :=
  { ctr := ctr
  , handled := true
  , st := some st
  , consulted := consulted
  , deletedFromRegistry :=
      preDeleted || (if st.state = CState.exit then true else false)
  , cleaned := if st.state = CState.exit then true else false
  , cleanedProcess :=
      if st.state = CState.exitProcess then some st.processID else none
  , spawnedWaiter := spawned }

/-- libcontainerd container.handleEvent: dispatch on the four recognized
event types, build the StateInfo (reading the sticky oom flag before an
OOM event sets it), reclassify a non-init Exit as ExitProcess, consult
the restart manager for a true container Exit when one is present and
adopt Restart on a positive decision (marking the shadow restarting,
deleting it from the registry and spawning the waiter), then run the
final cleanup switch and enqueue the StateInfo; unrecognized events are
logged and dropped. -/
def handleEvent (env : HEEnv) (ctr : Shadow) (e : CEvent) : HEResult :=
  if e.type = CState.exit ∨ e.type = CState.pause ∨ e.type = CState.resume ∨
      e.type = CState.oom then
    let st0 : StateInfo :=
      { state := e.type
      , exitCode := e.status
      , oomKilled := if e.type = CState.exit then ctr.oom else false }
    let ctr1 : Shadow :=
      if e.type = CState.oom then { ctr with oom := true } else ctr
    let st1 : StateInfo :=
      if e.type = CState.exit ∧ e.pid ≠ InitFriendlyName then
        { st0 with processID := e.pid, state := CState.exitProcess }
      else st0
    if st1.state = CState.exit ∧ ctr1.hasRestartManager then
      let args : Nat × Bool × Nat := (e.status, false, env.now - ctr1.startedAt)
      match env.decision with
      | RMDecision.err _ => finishHE ctr1 st1 (some args) false false
      | RMDecision.noRestart => finishHE ctr1 st1 (some args) false false
      | RMDecision.doRestart =>
          finishHE { ctr1 with restarting := true }
            { st1 with state := CState.restart } (some args) true true
    else
      finishHE ctr1 st1 none false false
  else
    { ctr := ctr, handled := false, st := none, consulted := none
    , deletedFromRegistry := false, cleaned := false, cleanedProcess := none
    , spawnedWaiter := false }

/-- Outcome of the channel receive the spawned restart waiter blocks on. -/
inductive WaitResult
  | elapsed
  | canceled
  | failed (msg : String)
deriving Repr, DecidableEq

/-- Outcome of the restart waiter goroutine body. -/
structure WaiterOutcome where
  restarting : Bool
  deliveredState : Option CState
  cleaned : Bool
  startReinvoked : Bool
  loggedError : Bool
deriving Repr, DecidableEq

/-- Body of the goroutine spawned for a positive restart decision: clear
the restarting flag; when the wait yields an error (cancellation or
otherwise) finalize the state as a terminal Exit, run directory cleanup
and deliver the StateInfo, logging the error unless it is the distinct
restart-canceled value; when the backoff elapses, re-invoke start. -/
def restartWaiter (w : WaitResult) : WaiterOutcome :=
  match w with
  | WaitResult.elapsed =>
      { restarting := false, deliveredState := none, cleaned := false
      , startReinvoked := true, loggedError := false }
  | WaitResult.canceled =>
      { restarting := false, deliveredState := some CState.exit
      , cleaned := true, startReinvoked := false, loggedError := false }
  | WaitResult.failed _ =>
      { restarting := false, deliveredState := some CState.exit
      , cleaned := true, startReinvoked := false, loggedError := true }

/-- Oracle results of the collaborators invoked by the runtime client's
container start: reading the on-disk spec, opening the fifos, the create
RPC (returning the system process ID on success), AttachStreams, and the
StateChanged callback. -/
structure CtrStartEnv where
  specErr : Option String
  openFifosErr : Option String
  createRPCErr : Option String
  rpcPid : Nat
  attachErr : Option String
  stateChangedErr : Option String
deriving Repr, DecidableEq

/-- Outcome of the runtime client's container start: the returned error,
and which of the side-effecting steps ran. -/
structure CtrStartResult where
  ret : Option String
  openedPipes : Bool
  registeredShadow : Bool
  rpcIssued : Bool
  closedFifos : Bool
  startedAtSet : Bool
  systemPid : Option Nat
  deliveredStart : Bool
deriving Repr, DecidableEq

/-- libcontainerd container.start: read the spec from disk — returning
success when that read fails — open the fifos, register the shadow in
the client's registry before issuing the create RPC, close the fifos and
fail when the RPC fails, record the start time, attach the streams,
record the system process ID and deliver the synthetic Start StateInfo. -/
def ctrStart (env : CtrStartEnv) : CtrStartResult :=
  match env.specErr with
  | some _ =>
      { ret := none, openedPipes := false, registeredShadow := false
      , rpcIssued := false, closedFifos := false, startedAtSet := false
      , systemPid := none, deliveredStart := false }
  | none =>
    match env.openFifosErr with
    | some m =>
        { ret := some m, openedPipes := false, registeredShadow := false
        , rpcIssued := false, closedFifos := false, startedAtSet := false
        , systemPid := none, deliveredStart := false }
    | none =>
      match env.createRPCErr with
      | some m =>
          { ret := some m, openedPipes := true, registeredShadow := true
          , rpcIssued := true, closedFifos := true, startedAtSet := false
          , systemPid := none, deliveredStart := false }
      | none =>
        match env.attachErr with
        | some m =>
            { ret := some m, openedPipes := true, registeredShadow := true
            , rpcIssued := true, closedFifos := false, startedAtSet := true
            , systemPid := none, deliveredStart := false }
        | none =>
            { ret := env.stateChangedErr, openedPipes := true
            , registeredShadow := true, rpcIssued := true
            , closedFifos := false, startedAtSet := true
            , systemPid := some env.rpcPid, deliveredStart := true }

/-! Sample concrete values used by witnesses and counterexamples. -/

/-- Freshly created, never started container. -/
def freshCtr : Container :=
  { id := "c1", path := "/bin/sh", paused := false, running := false
  , removalInProgress := false, dead := false, exitCode := 0
  , errorMsg := none, hostConfigNetworkMode := "bridge"
  , networksCleared := false, dnsInitialized := false, wasReset := false
  , execCommands := [], baseFS := "" }

/-- Paused container. -/
def pausedCtr : Container := { freshCtr with paused := true }

/-- Running container. -/
def runningCtr : Container := { freshCtr with running := true }

/-- Paused container whose running flag is also set, the state a pause
leaves a live container in. -/
def pausedRunningCtr : Container :=
  { freshCtr with paused := true, running := true }

/-- Collaborator environment in which every containerStart step succeeds. -/
def okCSEnv : CSEnv :=
  { mountErr := none, networkErr := none, specErr := none, createErr := none }

/-- Collaborator environment in which every ContainerStart step succeeds
and no host config is supplied. -/
def okDSEnv : DStartEnv :=
  { lookupErr := none, isWindows := false, hostConfig := none
  , setSecurityErr := none, setHostConfigErr := none, toDiskErr := none
  , verifyErr := none, adaptErr := none, cs := okCSEnv }

/-! Theorems for the claims, in claim order. -/

/-- Claim C3: for every container whose paused flag is set (and that the name
lookup resolves), ContainerStart returns the distinct paused error before
performing any host-config update, settings verification, mount, network
or RPC step (the executed step trace is empty), and mutates no container
state (the container is returned unchanged). -/
theorem ContainerStart_paused_rejected (env : DStartEnv) (c : Container)
    (hLookup : env.lookupErr = none) (hPaused : c.paused = true) :
    ContainerStart env c =
      { ret := some { msg := pausedErrMsg }, ctr := c, events := []
      , steps := [], cleanupRan := false } := by
  simp [ContainerStart, hLookup, hPaused, dsAbort]

/-- Witness for C3 at a concrete paused container. -/
theorem ContainerStart_paused_rejected_witness :
    ContainerStart okDSEnv pausedCtr =
      { ret := some { msg := pausedErrMsg }, ctr := pausedCtr, events := []
      , steps := [], cleanupRan := false } :=
  ContainerStart_paused_rejected okDSEnv pausedCtr rfl rfl

/-- Claim C4 counterexample: a container whose running flag is set but which is
also paused does not receive the HTTP not-modified signal; ContainerStart
returns the paused hard failure, whose attached status code is none, not
304. -/
theorem ContainerStart_running_paused_hard_failure :
    pausedRunningCtr.running = true ∧
    ContainerStart okDSEnv pausedRunningCtr =
      { ret := some { msg := pausedErrMsg, statusCode := none }
      , ctr := pausedRunningCtr, events := [], steps := []
      , cleanupRan := false } := by
  constructor
  · rfl
  · rfl

/-- Claim C4 amended: for every container whose running flag is set and whose
paused flag is clear (and that the lookup resolves), ContainerStart
returns the already-started error carrying HTTP status 304 with no state
mutation and no step executed, and containerStart returns success
immediately under every collaborator environment, with no state
mutation, no event and no step executed. -/
theorem ContainerStart_already_running_not_modified (env : DStartEnv)
    (c : Container) (hLookup : env.lookupErr = none)
    (hPaused : c.paused = false) (hRunning : c.running = true) :
    ContainerStart env c =
      { ret := some { msg := alreadyStartedMsg, statusCode := some 304 }
      , ctr := c, events := [], steps := [], cleanupRan := false } ∧
    ∀ csenv : CSEnv, containerStart csenv c =
      { ret := none, ctr := c, events := [], steps := []
      , cleanupRan := false } := by
  constructor
  · simp [ContainerStart, hLookup, hPaused, hRunning, dsAbort]
  · intro csenv
    simp [containerStart, hRunning]

/-- Witness for the amended C4 at a concrete running container. -/
theorem ContainerStart_already_running_not_modified_witness :
    ContainerStart okDSEnv runningCtr =
      { ret := some { msg := alreadyStartedMsg, statusCode := some 304 }
      , ctr := runningCtr, events := [], steps := [], cleanupRan := false } ∧
    containerStart okCSEnv runningCtr =
      { ret := none, ctr := runningCtr, events := [], steps := []
      , cleanupRan := false } :=
  ⟨(ContainerStart_already_running_not_modified okDSEnv runningCtr rfl rfl
      rfl).1,
   (ContainerStart_already_running_not_modified okDSEnv runningCtr rfl rfl
      rfl).2 okCSEnv⟩

/-- Claim C10: when reading the on-disk spec fails, the runtime client's
container start returns none — the success value — without opening
pipes, registering the shadow record, issuing the create RPC, or
delivering a Start StateInfo, so the caller cannot distinguish this
silent no-op from a successful start. -/
theorem ctrStart_spec_failure_silent (env : CtrStartEnv)
    (h : env.specErr.isSome = true) :
    ctrStart env =
      { ret := none, openedPipes := false, registeredShadow := false
      , rpcIssued := false, closedFifos := false, startedAtSet := false
      , systemPid := none, deliveredStart := false } := by
  obtain ⟨m, hm⟩ := Option.isSome_iff_exists.mp h
  simp [ctrStart, hm]

/-- Witness for C10 at a concrete failing spec read. -/
theorem ctrStart_spec_failure_silent_witness :
    ctrStart
      { specErr := some "read config failed", openFifosErr := none
      , createRPCErr := none, rpcPid := 7, attachErr := none
      , stateChangedErr := none } =
      { ret := none, openedPipes := false, registeredShadow := false
      , rpcIssued := false, closedFifos := false, startedAtSet := false
      , systemPid := none, deliveredStart := false } :=
  ctrStart_spec_failure_silent
    { specErr := some "read config failed", openFifosErr := none
    , createRPCErr := none, rpcPid := 7, attachErr := none
    , stateChangedErr := none } rfl

/-- Claim C6: for every Exit event whose reported process ID is not the init
process name, handleEvent delivers a StateInfo with state ExitProcess and
that sub-process ID, never consults the restart manager, does not delete
the shadow from the client registry, does not clean the container
directory, and cleans up only that sub-process's pipes; the shadow is
returned unchanged. -/
theorem handleEvent_subprocess_exit (env : HEEnv) (ctr : Shadow)
    (e : CEvent) (hT : e.type = CState.exit)
    (hP : e.pid ≠ InitFriendlyName) :
    handleEvent env ctr e =
      { ctr := ctr, handled := true
      , st := some { state := CState.exitProcess, exitCode := e.status
                   , oomKilled := ctr.oom, processID := e.pid }
      , consulted := none, deletedFromRegistry := false, cleaned := false
      , cleanedProcess := some e.pid, spawnedWaiter := false } := by
  simp [handleEvent, hT, hP, finishHE]

/-- Witness for C6 at a concrete sub-process exit event. -/
theorem handleEvent_subprocess_exit_witness :
    handleEvent { now := 100, decision := RMDecision.doRestart }
      { containerID := "c1", oom := false, restarting := false
      , startedAt := 40, hasRestartManager := true }
      { type := CState.exit, id := "c1", status := 3, pid := "exec7" } =
      { ctr := { containerID := "c1", oom := false, restarting := false
               , startedAt := 40, hasRestartManager := true }
      , handled := true
      , st := some { state := CState.exitProcess, exitCode := 3
                   , oomKilled := false, processID := "exec7" }
      , consulted := none, deletedFromRegistry := false, cleaned := false
      , cleanedProcess := some "exec7", spawnedWaiter := false } :=
  handleEvent_subprocess_exit { now := 100, decision := RMDecision.doRestart }
    { containerID := "c1", oom := false, restarting := false
    , startedAt := 40, hasRestartManager := true }
    { type := CState.exit, id := "c1", status := 3, pid := "exec7" }
    rfl (by decide)

/-- Helper: handleEvent sets the shadow's oom flag exactly on OOM events
and otherwise preserves it. -/
theorem handleEvent_ctr_oom (env : HEEnv) (ctr : Shadow) (e : CEvent) :
    (handleEvent env ctr e).ctr.oom
      = (ctr.oom || decide (e.type = CState.oom)) := by
  rcases e with ⟨t, i, s, p⟩
  cases t with
  | exit =>
      by_cases hP : p = InitFriendlyName
      · by_cases hRM : ctr.hasRestartManager
        · cases hD : env.decision <;>
            simp [handleEvent, finishHE, hP, hRM, hD]
        · simp [handleEvent, finishHE, hP, hRM]
      · simp [handleEvent, finishHE, hP]
  | pause => simp [handleEvent, finishHE]
  | resume => simp [handleEvent, finishHE]
  | oom => simp [handleEvent, finishHE]
  | exitProcess => simp [handleEvent]
  | restart => simp [handleEvent]
  | start => simp [handleEvent]

/-- Helper: every Exit event is delivered with OOMKilled equal to the
shadow's oom flag at arrival. -/
theorem handleEvent_exit_oomKilled (env : HEEnv) (ctr : Shadow) (e : CEvent)
    (hT : e.type = CState.exit) :
    Option.map StateInfo.oomKilled (handleEvent env ctr e).st
      = some ctr.oom := by
  by_cases hP : e.pid = InitFriendlyName
  · by_cases hRM : ctr.hasRestartManager
    · cases hD : env.decision <;>
        simp [handleEvent, hT, hP, hRM, hD, finishHE]
    · simp [handleEvent, hT, hP, hRM, finishHE]
  · simp [handleEvent, hT, hP, finishHE]

/-- Claim C7: an OOM event sets the sticky oom flag on the shadow (and the oom
flag is set by OOM events and by nothing else), the OOM event itself is
delivered with OOMKilled false, and every Exit event is delivered with
OOMKilled equal to the oom flag the shadow carried when it arrived — so
an Exit after an OOM reports true, and an Exit on a container that never
saw an OOM reports false; the last conjunct composes the two calls
directly. -/
theorem handleEvent_oom_stickiness (env env2 : HEEnv) (ctr : Shadow)
    (e e2 : CEvent) :
    (handleEvent env ctr e).ctr.oom
        = (ctr.oom || decide (e.type = CState.oom)) ∧
    (e.type = CState.oom →
      Option.map StateInfo.oomKilled (handleEvent env ctr e).st
        = some false) ∧
    (e.type = CState.exit →
      Option.map StateInfo.oomKilled (handleEvent env ctr e).st
        = some ctr.oom) ∧
    (e.type = CState.oom → e2.type = CState.exit →
      Option.map StateInfo.oomKilled
          (handleEvent env2 (handleEvent env ctr e).ctr e2).st
        = some true) := by
  refine ⟨handleEvent_ctr_oom env ctr e, ?_,
    fun hT => handleEvent_exit_oomKilled env ctr e hT, ?_⟩
  · intro hT
    simp [handleEvent, hT, finishHE]
  · intro hT hT2
    rw [handleEvent_exit_oomKilled env2 _ e2 hT2, handleEvent_ctr_oom, hT]
    simp

/-- Witness for C7: an OOM event followed by an init Exit event on the
updated shadow reports OOMKilled true, while the OOM delivery itself
reported false. -/
theorem handleEvent_oom_stickiness_witness :
    Option.map StateInfo.oomKilled
        (handleEvent { now := 5, decision := RMDecision.noRestart }
          { containerID := "c2", oom := false, restarting := false
          , startedAt := 1, hasRestartManager := false }
          { type := CState.oom, id := "c2", status := 0, pid := "init" }).st
      = some false ∧
    Option.map StateInfo.oomKilled
        (handleEvent { now := 9, decision := RMDecision.noRestart }
          (handleEvent { now := 5, decision := RMDecision.noRestart }
            { containerID := "c2", oom := false, restarting := false
            , startedAt := 1, hasRestartManager := false }
            { type := CState.oom, id := "c2", status := 0
            , pid := "init" }).ctr
          { type := CState.exit, id := "c2", status := 137
          , pid := "init" }).st
      = some true :=
  ⟨(handleEvent_oom_stickiness { now := 5, decision := RMDecision.noRestart }
      { now := 9, decision := RMDecision.noRestart }
      { containerID := "c2", oom := false, restarting := false
      , startedAt := 1, hasRestartManager := false }
      { type := CState.oom, id := "c2", status := 0, pid := "init" }
      { type := CState.exit, id := "c2", status := 137
      , pid := "init" }).2.1 rfl,
   (handleEvent_oom_stickiness { now := 5, decision := RMDecision.noRestart }
      { now := 9, decision := RMDecision.noRestart }
      { containerID := "c2", oom := false, restarting := false
      , startedAt := 1, hasRestartManager := false }
      { type := CState.oom, id := "c2", status := 0, pid := "init" }
      { type := CState.exit, id := "c2", status := 137
      , pid := "init" }).2.2.2 rfl rfl⟩

/-- Claim C8: for a true container Exit (init process ID) on a shadow with a
restart manager, the manager is consulted with exactly the event's exit
status, manual-stop false, and the time elapsed since startedAt; on a
positive decision the delivered state becomes Restart, the restarting
flag is set, the shadow is deleted from the client registry, no
synchronous directory cleanup runs, and a waiter is spawned whose body
re-invokes start when the backoff elapses, and on a wait error
(cancellation) instead delivers a terminal Exit state and runs directory
cleanup without re-invoking start. -/
theorem handleEvent_restart_cycle (env : HEEnv) (ctr : Shadow) (e : CEvent)
    (hT : e.type = CState.exit) (hP : e.pid = InitFriendlyName)
    (hRM : ctr.hasRestartManager = true)
    (hD : env.decision = RMDecision.doRestart) :
    (handleEvent env ctr e).consulted
        = some (e.status, false, env.now - ctr.startedAt) ∧
    Option.map StateInfo.state (handleEvent env ctr e).st
        = some CState.restart ∧
    (handleEvent env ctr e).ctr.restarting = true ∧
    (handleEvent env ctr e).deletedFromRegistry = true ∧
    (handleEvent env ctr e).cleaned = false ∧
    (handleEvent env ctr e).spawnedWaiter = true ∧
    (restartWaiter WaitResult.elapsed).startReinvoked = true ∧
    (restartWaiter WaitResult.elapsed).cleaned = false ∧
    (restartWaiter WaitResult.canceled).deliveredState = some CState.exit ∧
    (restartWaiter WaitResult.canceled).cleaned = true ∧
    (restartWaiter WaitResult.canceled).startReinvoked = false := by
  simp [handleEvent, hT, hP, hRM, hD, finishHE, restartWaiter]

/-- Witness for C8 at a concrete init exit with a positive restart
decision. -/
theorem handleEvent_restart_cycle_witness :
    (handleEvent { now := 50, decision := RMDecision.doRestart }
      { containerID := "c3", oom := false, restarting := false
      , startedAt := 20, hasRestartManager := true }
      { type := CState.exit, id := "c3", status := 1
      , pid := "init" }).consulted = some (1, false, 30) ∧
    (handleEvent { now := 50, decision := RMDecision.doRestart }
      { containerID := "c3", oom := false, restarting := false
      , startedAt := 20, hasRestartManager := true }
      { type := CState.exit, id := "c3", status := 1
      , pid := "init" }).ctr.restarting = true :=
  ⟨(handleEvent_restart_cycle { now := 50, decision := RMDecision.doRestart }
      { containerID := "c3", oom := false, restarting := false
      , startedAt := 20, hasRestartManager := true }
      { type := CState.exit, id := "c3", status := 1, pid := "init" }
      rfl rfl rfl rfl).1,
   (handleEvent_restart_cycle { now := 50, decision := RMDecision.doRestart }
      { containerID := "c3", oom := false, restarting := false
      , startedAt := 20, hasRestartManager := true }
      { type := CState.exit, id := "c3", status := 1, pid := "init" }
      rfl rfl rfl rfl).2.2.1⟩

/-- Claim C9: Cleanup has no error result (its return type is a plain action
trace) and performs every step whatever the collaborators report:
network release, IPC unmount, the conditional filesystem unmount with
the forced unmount-by-mount-ID fallback exactly when the normal unmount
fails and the mount ID resolves, unregistration of every exec command,
the volume unmount exactly when BaseFS is non-empty with failure merely
logged as a warning, and — always, and last — attach-context
cancellation. -/
theorem Cleanup_total_progress (env : CleanupEnv) (c : Container) :
    CleanupAction.releaseNetwork ∈ Cleanup env c ∧
    CleanupAction.unmountIpc ∈ Cleanup env c ∧
    CleanupAction.conditionalUnmount ∈ Cleanup env c ∧
    (∀ mid : String, CleanupAction.forcedUnmountByID mid ∈ Cleanup env c ↔
      env.unmountErr.isSome = true ∧ env.mountIDRes = some mid) ∧
    (∀ n : String, CleanupAction.unregisterExec n ∈ Cleanup env c ↔
      n ∈ c.execCommands) ∧
    (CleanupAction.unmountVolumes ∈ Cleanup env c ↔ c.baseFS ≠ "") ∧
    (CleanupAction.warnVolumes ∈ Cleanup env c ↔
      c.baseFS ≠ "" ∧ env.unmountVolumesErr.isSome = true) ∧
    (Cleanup env c).getLast? = some CleanupAction.cancelAttach := by
  refine ⟨?_, ?_, ?_, ?_, ?_, ?_, ?_, ?_⟩
  · simp [Cleanup]
  · simp [Cleanup]
  · simp [Cleanup]
  · intro mid
    cases hU : env.unmountErr <;> cases hM : env.mountIDRes <;>
      by_cases hB : c.baseFS = "" <;>
        cases hV : env.unmountVolumesErr <;> simp_all [Cleanup, eq_comm]
  · intro n
    cases hU : env.unmountErr <;> cases hM : env.mountIDRes <;>
      by_cases hB : c.baseFS = "" <;>
        cases hV : env.unmountVolumesErr <;> simp_all [Cleanup]
  · cases hU : env.unmountErr <;> cases hM : env.mountIDRes <;>
      by_cases hB : c.baseFS = "" <;>
        cases hV : env.unmountVolumesErr <;> simp_all [Cleanup]
  · cases hU : env.unmountErr <;> cases hM : env.mountIDRes <;>
      by_cases hB : c.baseFS = "" <;>
        cases hV : env.unmountVolumesErr <;> simp_all [Cleanup]
  · unfold Cleanup
    rw [List.getLast?_append_cons]
    rfl

/-- Witness for C9 at a concrete environment in which the filesystem
unmount fails, the mount ID resolves, the container has one exec command
and a mounted base filesystem, and the volume unmount fails. -/
theorem Cleanup_total_progress_witness :
    CleanupAction.releaseNetwork ∈
      Cleanup { unmountErr := some "busy", mountIDRes := some "m1"
              , unmountVolumesErr := some "still mounted" }
        { freshCtr with execCommands := ["e1"], baseFS := "/var/lib/d" } ∧
    (CleanupAction.forcedUnmountByID "m1" ∈
      Cleanup { unmountErr := some "busy", mountIDRes := some "m1"
              , unmountVolumesErr := some "still mounted" }
        { freshCtr with execCommands := ["e1"], baseFS := "/var/lib/d" } ↔
      (some "busy" : Option String).isSome = true ∧
        (some "m1" : Option String) = some "m1") ∧
    (Cleanup { unmountErr := some "busy", mountIDRes := some "m1"
             , unmountVolumesErr := some "still mounted" }
        { freshCtr with execCommands := ["e1"], baseFS := "/var/lib/d" }
      ).getLast? = some CleanupAction.cancelAttach :=
  ⟨(Cleanup_total_progress
      { unmountErr := some "busy", mountIDRes := some "m1"
      , unmountVolumesErr := some "still mounted" }
      { freshCtr with execCommands := ["e1"], baseFS := "/var/lib/d" }).1,
   (Cleanup_total_progress
      { unmountErr := some "busy", mountIDRes := some "m1"
      , unmountVolumesErr := some "still mounted" }
      { freshCtr with execCommands := ["e1"], baseFS := "/var/lib/d" }
      ).2.2.2.1 "m1",
   (Cleanup_total_progress
      { unmountErr := some "busy", mountIDRes := some "m1"
      , unmountVolumesErr := some "still mounted" }
      { freshCtr with execCommands := ["e1"], baseFS := "/var/lib/d" }
      ).2.2.2.2.2.2.2⟩

/-- Create-RPC error message matching both a not-found pattern and the
permission-denied pattern. -/
def bothPatternsMsg : String :=
  "stat /bin/sh: no such file or directory: permission denied"

/-- Environment in which the create RPC fails with a message matching
both a not-found pattern and the permission-denied pattern. -/
def c1CexEnv : CSEnv :=
  { mountErr := none, networkErr := none, specErr := none
  , createErr := some bothPatternsMsg }

/-- Claim C1 counterexample: an RPC error whose message contains the
permission-denied text but also a not-found pattern is classified to
exit code 127 with the not-found message, not to exit code 126 with the
could-not-be-invoked message the claim requires for every
permission-denied error. -/
theorem containerStart_both_patterns_gets_127 :
    strContains bothPatternsMsg eaccesText = true ∧
    (containerStart c1CexEnv freshCtr).ctr.exitCode = 127 ∧
    (containerStart c1CexEnv freshCtr).ret
      = some { msg := notFoundMsg "/bin/sh" } := by
  refine ⟨by decide, by decide, by decide⟩

/-- Claim C1 amended: the not-found patterns are checked first and rewrite the
error, and the permission-denied check then applies to the message as
possibly rewritten; so a message matching a not-found pattern yields
exit code 127 with the not-found message (whenever the rewritten message
itself is free of the permission text, in particular for every container
path not containing it), a message matching the permission text but no
not-found pattern yields exit code 126 with the could-not-be-invoked
message, a rewritten message that does contain the permission text
yields 126, and a message matching neither pattern is returned
unmodified. -/
theorem containerStart_rpc_error_classification (env : CSEnv)
    (c : Container) (m : String) (hRun : c.running = false)
    (hRem : c.removalInProgress = false) (hDead : c.dead = false)
    (hM : env.mountErr = none) (hN : env.networkErr = none)
    (hS : env.specErr = none) (hC : env.createErr = some m) :
    (matchesNotFound m = true →
      strContains (notFoundMsg c.path) eaccesText = false →
      (containerStart env c).ctr.exitCode = 127 ∧
      (containerStart env c).ret = some { msg := notFoundMsg c.path }) ∧
    (matchesNotFound m = false → strContains m eaccesText = true →
      (containerStart env c).ctr.exitCode = 126 ∧
      (containerStart env c).ret = some { msg := invokeMsg c.path }) ∧
    (matchesNotFound m = true →
      strContains (notFoundMsg c.path) eaccesText = true →
      (containerStart env c).ctr.exitCode = 126 ∧
      (containerStart env c).ret = some { msg := invokeMsg c.path }) ∧
    (matchesNotFound m = false → strContains m eaccesText = false →
      (containerStart env c).ret = some { msg := m }) := by
  refine ⟨?_, ?_, ?_, ?_⟩
  · intro hNF hPD
    by_cases hNM : c.hostConfigNetworkMode = "" <;>
      simp [containerStart, hRun, hRem, hDead, hM, hN, hS, hC, hNF, hPD,
        hNM, startFailure, resetCtr]
  · intro hNF hPD
    by_cases hNM : c.hostConfigNetworkMode = "" <;>
      simp [containerStart, hRun, hRem, hDead, hM, hN, hS, hC, hNF, hPD,
        hNM, startFailure, resetCtr]
  · intro hNF hPD
    by_cases hNM : c.hostConfigNetworkMode = "" <;>
      simp [containerStart, hRun, hRem, hDead, hM, hN, hS, hC, hNF, hPD,
        hNM, startFailure, resetCtr]
  · intro hNF hPD
    by_cases hNM : c.hostConfigNetworkMode = "" <;>
      simp [containerStart, hRun, hRem, hDead, hM, hN, hS, hC, hNF, hPD,
        hNM, startFailure, resetCtr]

/-- Witness for the amended C1: a permission-denied-only message is
classified to exit code 126 with the could-not-be-invoked message. -/
theorem containerStart_rpc_error_classification_witness :
    (containerStart
        { mountErr := none, networkErr := none, specErr := none
        , createErr := some "fork/exec /bin/sh: permission denied" }
        freshCtr).ctr.exitCode = 126 ∧
    (containerStart
        { mountErr := none, networkErr := none, specErr := none
        , createErr := some "fork/exec /bin/sh: permission denied" }
        freshCtr).ret = some { msg := invokeMsg freshCtr.path } :=
  (containerStart_rpc_error_classification
    { mountErr := none, networkErr := none, specErr := none
    , createErr := some "fork/exec /bin/sh: permission denied" }
    freshCtr "fork/exec /bin/sh: permission denied"
    rfl rfl rfl rfl rfl rfl rfl).2.1 (by decide) (by decide)

/-- Environment in which the filesystem mount step of containerStart
fails. -/
def c2CexEnv : CSEnv :=
  { mountErr := some "mount failed", networkErr := none, specErr := none
  , createErr := none }

/-- Claim C2 counterexample: when the mount step fails, containerStart logs
only the die event; no start lifecycle event is logged, although the
claim requires one for every failure. -/
theorem containerStart_mount_failure_no_start_event :
    (containerStart c2CexEnv freshCtr).events = [LifecycleEvent.die 128] ∧
    LifecycleEvent.start ∉ (containerStart c2CexEnv freshCtr).events ∧
    (containerStart c2CexEnv freshCtr).ret
      = some { msg := "mount failed" } := by
  refine ⟨by decide, by decide, by decide⟩

/-- Claim C2 amended: for a container that passes the early precondition
checks, a mount, network-initialization or spec-construction failure
logs exactly one die event (with the defaulted exit code) and no start
event; a create-RPC failure logs a start event followed by a die event;
and containerStart returns an error exactly when one of the four steps
fails. -/
theorem containerStart_failure_events (env : CSEnv) (c : Container)
    (hRun : c.running = false) (hRem : c.removalInProgress = false)
    (hDead : c.dead = false) :
    ((∃ m, env.mountErr = some m) →
      (containerStart env c).events = [LifecycleEvent.die (dieCode c)]) ∧
    (env.mountErr = none → (∃ m, env.networkErr = some m) →
      (containerStart env c).events = [LifecycleEvent.die (dieCode c)]) ∧
    (env.mountErr = none → env.networkErr = none →
      (∃ m, env.specErr = some m) →
      (containerStart env c).events = [LifecycleEvent.die (dieCode c)]) ∧
    (env.mountErr = none → env.networkErr = none → env.specErr = none →
      (∃ m, env.createErr = some m) →
      ∃ ec, (containerStart env c).events
        = [LifecycleEvent.start, LifecycleEvent.die ec]) ∧
    ((containerStart env c).ret.isSome
      = (env.mountErr.isSome || env.networkErr.isSome ||
          env.specErr.isSome || env.createErr.isSome)) := by
  refine ⟨?_, ?_, ?_, ?_, ?_⟩
  · rintro ⟨m, hm⟩
    simp [containerStart, hRun, hRem, hDead, hm, startFailure, dieCode]
    split <;> simp
  · rintro hM ⟨m, hm⟩
    by_cases hNM : c.hostConfigNetworkMode = ""
    · simp [containerStart, hRun, hRem, hDead, hM, hm, hNM, startFailure,
        dieCode]
      split <;> simp
    · simp [containerStart, hRun, hRem, hDead, hM, hm, hNM, startFailure,
        dieCode]
      split <;> simp
  · rintro hM hN ⟨m, hm⟩
    by_cases hNM : c.hostConfigNetworkMode = ""
    · simp [containerStart, hRun, hRem, hDead, hM, hN, hm, hNM,
        startFailure, dieCode]
      split <;> simp
    · simp [containerStart, hRun, hRem, hDead, hM, hN, hm, hNM,
        startFailure, dieCode]
      split <;> simp
  · rintro hM hN hS ⟨m, hm⟩
    by_cases hNM : c.hostConfigNetworkMode = "" <;>
      simp [containerStart, hRun, hRem, hDead, hM, hN, hS, hm, hNM,
        startFailure, resetCtr]
  · cases hM : env.mountErr <;> cases hN : env.networkErr <;>
      cases hS : env.specErr <;> cases hC : env.createErr <;>
      by_cases hNM : c.hostConfigNetworkMode = "" <;>
      simp [containerStart, hRun, hRem, hDead, hM, hN, hS, hC, hNM,
        startFailure]

/-- Witness for the amended C2: a network failure logs exactly the die
event, and a create-RPC failure logs the start event then the die
event. -/
theorem containerStart_failure_events_witness :
    (containerStart
        { mountErr := none, networkErr := some "bridge down"
        , specErr := none, createErr := none } freshCtr).events
      = [LifecycleEvent.die (dieCode freshCtr)] ∧
    ∃ ec, (containerStart
        { mountErr := none, networkErr := none, specErr := none
        , createErr := some "rpc unavailable" } freshCtr).events
      = [LifecycleEvent.start, LifecycleEvent.die ec] :=
  ⟨(containerStart_failure_events
      { mountErr := none, networkErr := some "bridge down"
      , specErr := none, createErr := none } freshCtr rfl rfl rfl).2.1 rfl
      ⟨"bridge down", rfl⟩,
   (containerStart_failure_events
      { mountErr := none, networkErr := none, specErr := none
      , createErr := some "rpc unavailable" } freshCtr rfl rfl rfl).2.2.2.1
      rfl rfl rfl ⟨"rpc unavailable", rfl⟩⟩

/-- Create environment in which the RW-layer step — which runs after the
container record is instantiated but before registration — fails. -/
def c5CexEnv : CreateEnv :=
  { image := "", containerID := "cid1", getImageErr := none
  , mergeErr := none, newContainerErr := none, setSecurityErr := none
  , setRWLayerErr := some "driver failed", registerErr := none
  , rootIDErr := none, mkdirErr := none, setHostConfigErr := none
  , platformErr := none, netSettingsErr := none, toDiskErr := none }

/-- Claim C5 counterexample: when the RW-layer step fails, the container has
not been registered in the daemon index, yet create still attempts the
forced removal, contradicting the claim that a failure before
registration simply returns the error with no forced-removal attempt. -/
theorem create_preregistration_failure_forces_removal :
    (create c5CexEnv).registered = false ∧
    (create c5CexEnv).forcedRemove = true ∧
    (create c5CexEnv).err = some "driver failed" := by
  refine ⟨rfl, rfl, rfl⟩

/-- Claim C5 amended: the forced-removal rollback is keyed to the in-memory
container record, not to registration: create attempts forced removal
exactly when it fails after newContainer succeeded (so also for the
security-options, RW-layer and Register failures that precede or
constitute registration), releases mount points exactly when it fails
after setHostConfig succeeded, reports the container registered exactly
when Register succeeded, and returns the ID and logs the create event
exactly when no step failed; a failure before the record exists simply
returns the error. -/
theorem create_rollback_boundaries (env : CreateEnv) :
    (create env).forcedRemove
        = ((create env).err.isSome && reachedRecord env) ∧
    (create env).removedMountPoints
        = ((create env).err.isSome && reachedHostConfigDone env) ∧
    (create env).registered = reachedRegistered env ∧
    (create env).createdID.isSome = (create env).err.isNone ∧
    (create env).createEvent = (create env).err.isNone := by
  unfold create
  repeat' split <;>
    (try simp_all [createFail, reachedRecord, reachedRegistered,
      reachedHostConfigDone])

/-- Create environment failing at the platform-settings step, after
registration. -/
def c5PostRegEnv : CreateEnv :=
  { c5CexEnv with
    setRWLayerErr := none
    platformErr := some "mount over file" }

/-- Witness for the amended C5 at an environment failing after
registration: the platform-settings failure triggers both rollbacks. -/
theorem create_rollback_boundaries_witness :
    (create c5PostRegEnv).forcedRemove
      = ((create c5PostRegEnv).err.isSome && reachedRecord c5PostRegEnv) ∧
    (create c5PostRegEnv).removedMountPoints
      = ((create c5PostRegEnv).err.isSome &&
          reachedHostConfigDone c5PostRegEnv) :=
  ⟨(create_rollback_boundaries c5PostRegEnv).1,
   (create_rollback_boundaries c5PostRegEnv).2.1⟩
